import Mathlib

/-
  Verification of the HALLOW demo firmware (src/Demo/Demo_TX_Hallow_V1.ino:
  the TX sketch and the RX sketch bundled after it).  The firmware's
  scheduler loop, SPI transaction classification, timers, MQTT reconnect
  and web-save handler are embedded shallowly: unsigned 32-bit millisecond
  arithmetic is Nat modulo 2^32, bounded C strings are Lean Strings,
  and external collaborators (WiFi, the MQTT library, the SPI bus and the
  web server) appear as oracle inputs to the step functions.  Each call to
  millis() inside one loop() invocation is a separate oracle value.
-/

namespace Hallow

/-- Modulus of the 32-bit millisecond counter (unsigned long on the ESP32). -/
def u32Mod : Nat := 4294967296

/-- Reduce a value to the 32-bit counter range. -/
def w32 (n : Nat) : Nat := n % u32Mod

/-- Unsigned 32-bit subtraction `a - b`, as C computes `millis() - lastEvent`. -/
def sub32 (a b : Nat) : Nat := (w32 a + (u32Mod - w32 b)) % u32Mod

/-- TX_INTERVAL / RX_INTERVAL: the bus transaction period (both 2000 ms). -/
def TX_INTERVAL : Nat := 2000

/-- MQTT_RECONNECT_MS: reconnect backoff (5000 ms in both sketches). -/
def MQTT_RECONNECT_MS : Nat := 5000

/-- AP_TIMEOUT_MS: access-point safety window (300000 ms in both sketches). -/
def AP_TIMEOUT_MS : Nat := 300000

/-- RX_BUF_LEN: size of the receive buffer (32 bytes). -/
def RX_BUF_LEN : Nat := 32

/-- Eligibility of the periodic bus transaction: `millis() - lastTx >= TX_INTERVAL`
(identical line in both sketches). -/
def busDue (now last : Nat) : Bool := decide (TX_INTERVAL ≤ sub32 now last)

/-- The MQTT backoff window is still open:
`millis() - lastMqttReconnect < MQTT_RECONNECT_MS`. -/
def mqttWindow (now last : Nat) : Bool := decide (sub32 now last < MQTT_RECONNECT_MS)

/-- AP safety timeout exceeded: `apMode && millis() - apStartTime > AP_TIMEOUT_MS`. -/
def apExpired (now start : Nat) : Bool := decide (AP_TIMEOUT_MS < sub32 now start)

/-- Indicator off-deadline reached: `millis() >= lastLedOff`.  Note this is a
plain unsigned comparison in the source, not a modular subtraction. -/
def ledOffDue (now off : Nat) : Bool := decide (off ≤ w32 now)

-- ==================== Config (the cfg* globals) ====================

/-- DeviceConfig: the cfgSSID/cfgPass/cfgMqttServer/cfgMqttPort/cfgMqttTopic/
cfgMqttUser/cfgMqttPass globals.  Bounded null-terminated C strings are
modelled as Lean Strings. -/
structure Config where
  ssid : String
  pass : String
  ms : String
  mp : Nat
  mt : String
  mu : String
  mw : String
deriving DecidableEq

/-- A default config value used in concrete test states. -/
def cfg0 : Config :=
  { ssid := "", pass := "", ms := "", mp := 1883, mt := "", mu := "", mw := "" }

-- ==================== String -> long (Arduino String::toInt) ====================

/-- Decimal digit test, as C isdigit on ASCII. -/
def isDigitChar (c : Char) : Bool := decide (48 ≤ c.toNat) && decide (c.toNat ≤ 57)

/-- C isspace on ASCII (space and 0x09..0x0D). -/
def isSpaceChar (c : Char) : Bool := c == ' ' || (decide (9 ≤ c.toNat) && decide (c.toNat ≤ 13))

/-- Accumulate the leading run of decimal digits (atol's digit loop). -/
def digitsAcc : List Char → Nat → Nat
  | [], acc => acc
  | c :: cs, acc => if isDigitChar c then digitsAcc cs (acc * 10 + (c.toNat - 48)) else acc

/-- Arduino String::toInt, which calls C atol: skip whitespace, optional
sign, then leading digits; 0 when no digits are found.  (atol's overflow
behaviour is undefined in C and not modelled; no claim exercises it.) -/
def atol (s : String) : Int :=
  match s.data.dropWhile isSpaceChar with
  | '-' :: cs => -(Int.ofNat (digitsAcc cs 0))
  | '+' :: cs => Int.ofNat (digitsAcc cs 0)
  | cs => Int.ofNat (digitsAcc cs 0)

/-- Conversion of the long returned by toInt to the uint16_t cfgMqttPort. -/
def toUInt16 (i : Int) : Nat := (i % 65536).toNat

/-- Arduino String::toCharArray(buf, size): copy at most size-1 characters
and null-terminate. -/
def toCharArray (s : String) (size : Nat) : String := String.mk (s.data.take (size - 1))

/-- prefs.getUShort("mqttPort", 1883): baseline 1883 applies only when no
value is stored. -/
def loadPort (stored : Option Nat) : Nat := stored.getD 1883

-- ==================== POST /save (handleSave, identical in TX and RX) ====================

/-- The optional form fields of a POST /save request (server.hasArg/arg). -/
structure SaveArgs where
  ssid : Option String
  pass : Option String
  ms : Option String
  mp : Option String
  mt : Option String
  mu : Option String
  mw : Option String

/-- handleSave's config mutation (TX lines 307-314, RX lines 831-838 are
identical): every present field overwrites the corresponding config field;
strings through toCharArray with the field's buffer size, mp through
String::toInt assigned to a uint16_t. -/
def handleSave (cfg : Config) (a : SaveArgs) : Config :=
  let cfg := match a.ssid with | some v => { cfg with ssid := toCharArray v 33 } | none => cfg
  let cfg := match a.pass with | some v => { cfg with pass := toCharArray v 65 } | none => cfg
  let cfg := match a.ms with | some v => { cfg with ms := toCharArray v 65 } | none => cfg
  let cfg := match a.mp with | some v => { cfg with mp := toUInt16 (atol v) } | none => cfg
  let cfg := match a.mt with | some v => { cfg with mt := toCharArray v 65 } | none => cfg
  let cfg := match a.mu with | some v => { cfg with mu := toCharArray v 33 } | none => cfg
  match a.mw with | some v => { cfg with mw := toCharArray v 65 } | none => cfg

/-- A /save request carrying only the mp field. -/
def mpOnly (v : String) : SaveArgs :=
  { ssid := none, pass := none, ms := none, mp := some v, mt := none, mu := none, mw := none }

/-- A /save request carrying only the ssid field. -/
def ssidOnly (v : String) : SaveArgs :=
  { ssid := some v, pass := none, ms := none, mp := none, mt := none, mu := none, mw := none }

-- ==================== RX classification (spiReceive lines 928-936) ====================

/-- The rxBuf contents after the exchange: 32 uint8_t slots, zero-filled by
memset and then overwritten by the 32 transfer results in order. -/
def mkRxBuf (resp : List Nat) : List Nat :=
  (resp.map (fun b => b % 256) ++ List.replicate RX_BUF_LEN 0).take RX_BUF_LEN

/-- The classification loop of spiReceive: scan the buffer with index i,
any byte that is neither 0x00 nor 0xFF sets hasData and rxLen = i + 1. -/
def classifyLoop : List Nat → Nat → Bool → Nat → Bool × Nat
  | [], _, hasData, rxLen => (hasData, rxLen)
  | b :: bs, i, hasData, rxLen =>
    if b != 0 && b != 255 then classifyLoop bs (i + 1) true (i + 1)
    else classifyLoop bs (i + 1) hasData rxLen

/-- Classification of a received buffer: (hasData, rxLen). -/
def classify (buf : List Nat) : Bool × Nat := classifyLoop buf 0 false 0

-- ==================== RX rendering (spiReceive lines 938-950) ====================

/-- Uppercase hexadecimal digit, as printf %X renders one nibble. -/
def hexDigit (n : Nat) : Char := if n < 10 then Char.ofNat (48 + n) else Char.ofNat (55 + n)

/-- The two characters printf "%02X" produces for one byte value. -/
def hex2c (b : Nat) : List Char := [hexDigit (b / 16 % 16), hexDigit (b % 16)]

/-- The characters the hex loop writes: "%02X " per byte, in order. -/
def hexChars : List Nat → List Char
  | [] => []
  | b :: bs => hex2c b ++ ' ' :: hexChars bs

/-- The hex display string: the "%02X " loop followed by the trailing-space
trim (`*(p - 1) = 0` when anything was written). -/
def renderHex (bs : List Nat) : String := String.mk (hexChars bs).dropLast

/-- One ASCII display character: printable bytes 0x20..0x7E verbatim,
everything else replaced by a dot. -/
def asciiChar (b : Nat) : Char :=
  if 0x20 ≤ b ∧ b ≤ 0x7E then Char.ofNat b else '.'

/-- The ASCII display string built by the same loop. -/
def renderAscii (bs : List Nat) : String := String.mk (bs.map asciiChar)

/-- Space-separated concatenation of chunks: the form the spec words
"space-separated two-digit uppercase hexadecimal" describe. -/
def sepBySpace : List (List Char) → List Char
  | [] => []
  | [p] => p
  | p :: ps => p ++ ' ' :: sepBySpace ps

/-- Which kind of mqtt.connect call the reconnect attempt issues. -/
inductive ConnectKind
  | withCreds
  | anonymous
deriving DecidableEq

-- ==================== TX sketch (lines 1-506) ====================

namespace TX

/-- LED_FLASH_MS of the TX sketch: 50 ms. -/
def LED_FLASH_MS : Nat := 50

/-- The mutable globals of the TX sketch that the scheduler loop touches. -/
structure State where
  cfg : Config
  apMode : Bool
  wifiConnected : Bool
  mqttConnected : Bool
  txCount : Nat
  lastTx : Nat
  lastLedOff : Nat
  lastMqttReconnect : Nat
  apStartTime : Nat
  ledOn : Bool
  lastSpiResult : Int
deriving DecidableEq

/-- Oracle inputs of one loop() invocation: one timestamp per millis() call
site (mqttReconnect's adjacent check and mark reads; the transaction check
at line 490 and mark at line 491; the arm read inside spiTransmit; the LED
check at line 496; the AP check at line 502), plus the values the MQTT
library reports at its call sites. -/
structure Input where
  tMqttChk : Nat
  tMqttMark : Nat
  tChk : Nat
  tMark : Nat
  tArm : Nat
  tLed : Nat
  tAp : Nat
  connAtLoop : Bool
  connAtRec : Bool
  connAtTx : Bool
  connectOk : Bool

/-- mqttReconnect (TX lines 363-385).  Returns the new state and, when a
physical connect attempt was issued, which kind it was. -/
def mqttReconnect (st : State) (tChk tMark : Nat) (connectedNow connectOk : Bool) :
    State × Option ConnectKind :=
  if st.cfg.ms = "" then (st, none)
  else if connectedNow then (st, none)
  else if mqttWindow tChk st.lastMqttReconnect then (st, none)
  else
    let st1 := { st with lastMqttReconnect := w32 tMark }
    if st1.cfg.mu ≠ "" then
      ({ st1 with mqttConnected := connectOk }, some ConnectKind.withCreds)
    else
      ({ st1 with mqttConnected := connectOk }, some ConnectKind.anonymous)

/-- spiTransmit (TX lines 388-418): the byte exchange itself is opaque;
afterwards the result is marked OK, the counter incremented, the LED armed
with an off-deadline millis() + LED_FLASH_MS, and a status message is
published when the MQTT link is up (the returned Bool). -/
def spiTransmit (st : State) (tArm : Nat) (mqttConn : Bool) : State × Bool :=
  ({ st with lastSpiResult := 0, txCount := st.txCount + 1,
             ledOn := true, lastLedOff := w32 (tArm + LED_FLASH_MS) }, mqttConn)

/-- The spi field of the /api/status JSON (TX line 327). -/
def spiStatus (r : Int) : String := if r = 0 then "OK" else if r < 0 then "IDLE" else "FAIL"

/-- One loop() invocation (TX lines 472-506), split into its named slices.
OTA and server.handleClient are external collaborators; a /save or /reboot
request ends in a restart, i.e. in a boot state of the reachability
relation below.  The returned Bool of loopStep reports whether the AP
safety timeout fired (ESP.restart, line 504).
Lines 482-487: the MQTT maintenance slice. -/
def mqttStep (st : State) (inp : Input) : State :=
  if st.wifiConnected && !inp.connAtLoop then
    (mqttReconnect st inp.tMqttChk inp.tMqttMark inp.connAtRec inp.connectOk).1
  else st

/-- Lines 490-493: the periodic transaction slice of loop(). -/
def busStep (st : State) (inp : Input) : State :=
  if busDue inp.tChk st.lastTx then
    (spiTransmit { st with lastTx := w32 inp.tMark } inp.tArm inp.connAtTx).1
  else st

/-- Lines 496-499: the indicator-off slice of loop(). -/
def ledStep (st : State) (tLed : Nat) : State :=
  if st.ledOn && ledOffDue tLed st.lastLedOff then { st with ledOn := false } else st

def loopStep (st : State) (inp : Input) : State × Bool :=
  let st3 := ledStep (busStep (mqttStep st inp) inp) inp.tLed
  (st3, st3.apMode && apExpired inp.tAp st3.apStartTime)

/-- The state setup() (TX lines 421-469) leaves behind: globals at their
initializers, then connectWiFi on a configured SSID (wifiOk tells whether
the bounded 15 s wait succeeded) or startAP otherwise. -/
def boot (cfg : Config) (wifiOk : Bool) (tBoot : Nat) : State :=
  let st : State :=
    { cfg := cfg, apMode := false, wifiConnected := false, mqttConnected := false,
      txCount := 0, lastTx := 0, lastLedOff := 0, lastMqttReconnect := 0,
      apStartTime := 0, ledOn := false, lastSpiResult := -1 }
  if cfg.ssid ≠ "" && wifiOk then { st with wifiConnected := true }
  else { st with apMode := true, apStartTime := w32 tBoot }

/-- Reachable TX states: a fresh boot (also the target of every restart,
including /save and /reboot) or one loop() invocation from a reachable
state.  Read-only web handlers do not change this state. -/
inductive Reach : State → Prop
  | boot (cfg : Config) (wifiOk : Bool) (t : Nat) : Reach (boot cfg wifiOk t)
  | step (st : State) (inp : Input) : Reach st → Reach (loopStep st inp).1

end TX

-- ==================== RX sketch (lines 507-1076) ====================

namespace RX

/-- LED_FLASH_MS of the RX sketch: 80 ms. -/
def LED_FLASH_MS : Nat := 80

/-- The mutable globals of the RX sketch that the scheduler loop touches. -/
structure State where
  cfg : Config
  apMode : Bool
  wifiConnected : Bool
  rxCount : Nat
  lastRx : Nat
  lastLedOff : Nat
  lastMqttReconnect : Nat
  apStartTime : Nat
  ledOn : Bool
  lastSpiResult : Int
  lastRxData : String
  lastRxAscii : String
  rxLen : Nat
deriving DecidableEq

/-- Oracle inputs of one RX loop() invocation: as for TX, plus the 32 bytes
the SPI exchange clocks in. -/
structure Input where
  tMqttChk : Nat
  tMqttMark : Nat
  tChk : Nat
  tMark : Nat
  tArm : Nat
  tLed : Nat
  tAp : Nat
  connAtLoop : Bool
  connAtRec : Bool
  connAtRx : Bool
  connectOk : Bool
  resp : List Nat

/-- mqttReconnect (RX lines 890-910): as in TX but with no mqttConnected
global (the RX sketch only logs the outcome). -/
def mqttReconnect (st : State) (tChk tMark : Nat) (connectedNow _connectOk : Bool) :
    State × Option ConnectKind :=
  if st.cfg.ms = "" then (st, none)
  else if connectedNow then (st, none)
  else if mqttWindow tChk st.lastMqttReconnect then (st, none)
  else
    let st1 := { st with lastMqttReconnect := w32 tMark }
    if st1.cfg.mu ≠ "" then (st1, some ConnectKind.withCreds)
    else (st1, some ConnectKind.anonymous)

/-- spiReceive (RX lines 913-983): classify the 32-byte exchange, build the
hex and ascii display strings for the first rxLen bytes, then either mark
DATA (counter, LED arm, publish when connected — the returned Bool) or
mark EMPTY. -/
def spiReceive (st : State) (resp : List Nat) (tArm : Nat) (mqttConn : Bool) :
    State × Bool :=
  let b := mkRxBuf resp
  let c := classify b
  let hexS := if c.1 && decide (0 < c.2) then renderHex (b.take (min c.2 RX_BUF_LEN)) else ""
  let asciiS := if c.1 && decide (0 < c.2) then renderAscii (b.take (min c.2 RX_BUF_LEN)) else ""
  if c.1 then
    ({ st with rxLen := c.2, lastRxData := hexS, lastRxAscii := asciiS,
               lastSpiResult := 0, rxCount := st.rxCount + 1,
               ledOn := true, lastLedOff := w32 (tArm + LED_FLASH_MS) }, mqttConn)
  else
    ({ st with rxLen := c.2, lastRxData := hexS, lastRxAscii := asciiS,
               lastSpiResult := 1 }, false)

/-- The spi field of the /api/status JSON (RX lines 851-857). -/
def spiStatus (r : Int) : String :=
  if r = 0 then "DATA" else if r = 1 then "EMPTY" else if r = 2 then "FAIL" else "IDLE"

/-- One RX loop() invocation (lines 1042-1076), shaped exactly like TX's,
split into its named slices.  Lines 1052-1057: the MQTT maintenance slice. -/
def mqttStep (st : State) (inp : Input) : State :=
  if st.wifiConnected && !inp.connAtLoop then
    (mqttReconnect st inp.tMqttChk inp.tMqttMark inp.connAtRec inp.connectOk).1
  else st

/-- Lines 1060-1063: the periodic transaction slice of loop(). -/
def busStep (st : State) (inp : Input) : State :=
  if busDue inp.tChk st.lastRx then
    (spiReceive { st with lastRx := w32 inp.tMark } inp.resp inp.tArm inp.connAtRx).1
  else st

/-- Lines 1066-1069: the indicator-off slice of loop(). -/
def ledStep (st : State) (tLed : Nat) : State :=
  if st.ledOn && ledOffDue tLed st.lastLedOff then { st with ledOn := false } else st

def loopStep (st : State) (inp : Input) : State × Bool :=
  let st3 := ledStep (busStep (mqttStep st inp) inp) inp.tLed
  (st3, st3.apMode && apExpired inp.tAp st3.apStartTime)

/-- The state setup() (RX lines 986-1039) leaves behind. -/
def boot (cfg : Config) (wifiOk : Bool) (tBoot : Nat) : State :=
  let st : State :=
    { cfg := cfg, apMode := false, wifiConnected := false,
      rxCount := 0, lastRx := 0, lastLedOff := 0, lastMqttReconnect := 0,
      apStartTime := 0, ledOn := false, lastSpiResult := -1,
      lastRxData := "", lastRxAscii := "", rxLen := 0 }
  if cfg.ssid ≠ "" && wifiOk then { st with wifiConnected := true }
  else { st with apMode := true, apStartTime := w32 tBoot }

/-- Reachable RX states. -/
inductive Reach : State → Prop
  | boot (cfg : Config) (wifiOk : Bool) (t : Nat) : Reach (boot cfg wifiOk t)
  | step (st : State) (inp : Input) : Reach st → Reach (loopStep st inp).1

end RX

-- ==================== Concrete states and inputs ====================

/-- A config with a telemetry endpoint set. -/
def cfgM : Config := { cfg0 with ms := "broker" }

/-- A 32-byte response whose only non-sentinel byte sits at index 3. -/
def oneAt3 : List Nat := [0, 255, 0, 7] ++ List.replicate 28 0

/-- A 32-byte response carrying the HELLO payload then zero fill. -/
def helloResp : List Nat := [72, 69, 76, 76, 79] ++ List.replicate 27 0

/-- A reachable baseline RX state: fresh boot with no configuration. -/
def rxB : RX.State := RX.boot cfg0 false 0

/-- A reachable baseline TX state: fresh boot with no configuration. -/
def txB : TX.State := TX.boot cfg0 false 0

/-- A TX state whose indicator was armed 10 ms before counter wraparound:
the stored off-deadline w32 (arm + 50) has wrapped around to 40. -/
def wrapLedState : TX.State :=
  { cfg := cfg0, apMode := false, wifiConnected := false, mqttConnected := false,
    txCount := 0, lastTx := 0, lastLedOff := w32 ((u32Mod - 10) + TX.LED_FLASH_MS),
    lastMqttReconnect := 0, apStartTime := 0, ledOn := true, lastSpiResult := 0 }

/-- Loop inputs read 5 ms after that arming instant, still before wraparound. -/
def wrapLedInput : TX.Input :=
  { tMqttChk := 0, tMqttMark := 0, tChk := 0, tMark := 0, tArm := 0,
    tLed := u32Mod - 5, tAp := 0,
    connAtLoop := false, connAtRec := false, connAtTx := false, connectOk := false }

/-- RX loop inputs: transaction due at t = 2000, all-zero response. -/
def emptyRxInput : RX.Input :=
  { tMqttChk := 0, tMqttMark := 0, tChk := 2000, tMark := 2000, tArm := 2000,
    tLed := 0, tAp := 0, connAtLoop := false, connAtRec := false, connAtRx := false,
    connectOk := false, resp := List.replicate 32 0 }

/-- RX loop inputs: transaction due at t = 2000, HELLO response. -/
def helloRxInput : RX.Input :=
  { emptyRxInput with resp := helloResp }

/-- TX loop inputs: transaction due at t = 2000 for a freshly booted state. -/
def dueTxInput : TX.Input :=
  { tMqttChk := 0, tMqttMark := 0, tChk := 2000, tMark := 2000, tArm := 2000,
    tLed := 2000, tAp := 0,
    connAtLoop := false, connAtRec := false, connAtTx := false, connectOk := false }

-- ==================== Helper lemmas ====================

theorem w32_lt (n : Nat) : w32 n < u32Mod := by
  have : 0 < u32Mod := by decide
  exact Nat.mod_lt _ this

theorem w32_w32 (n : Nat) : w32 (w32 n) = w32 n := by
  simp [w32]

theorem sub32_shift (a b c : Nat) : sub32 (a + c) (b + c) = sub32 a b := by
  simp only [sub32, w32, u32Mod]
  omega

theorem sub32_w32_left (a b : Nat) : sub32 (w32 a) b = sub32 a b := by
  simp [sub32, w32_w32]

theorem sub32_w32_right (a b : Nat) : sub32 a (w32 b) = sub32 a b := by
  simp [sub32, w32_w32]

theorem sub32_of_le (a b : Nat) (hb : w32 b ≤ w32 a) : sub32 a b = w32 a - w32 b := by
  have ha := w32_lt a
  have hbb := w32_lt b
  simp only [sub32, u32Mod] at *
  omega

theorem mkRxBuf_length (resp : List Nat) : (mkRxBuf resp).length = 32 := by
  simp [mkRxBuf, RX_BUF_LEN]

theorem mkRxBuf_eq_self (resp : List Nat) (hlen : resp.length = 32)
    (hlt : ∀ b ∈ resp, b < 256) : mkRxBuf resp = resp := by
  have hmap : ∀ l : List Nat, (∀ b ∈ l, b < 256) → l.map (fun b => b % 256) = l := by
    intro l
    induction l with
    | nil => intro _; rfl
    | cons b bs ih =>
      intro hl
      simp only [List.map_cons, Nat.mod_eq_of_lt (hl b (by simp)), List.cons.injEq, true_and]
      exact ih (fun x hx => hl x (List.mem_cons_of_mem _ hx))
  rw [mkRxBuf, hmap resp hlt, RX_BUF_LEN, ← hlen, List.take_left]

theorem classifyLoop_append (xs ys : List Nat) (i : Nat) (h : Bool) (l : Nat) :
    classifyLoop (xs ++ ys) i h l =
      classifyLoop ys (i + xs.length) (classifyLoop xs i h l).1 (classifyLoop xs i h l).2 := by
  induction xs generalizing i h l with
  | nil => simp [classifyLoop]
  | cons b bs ih =>
    simp only [List.cons_append, classifyLoop, List.length_cons, List.append_eq]
    have harith : i + (bs.length + 1) = (i + 1) + bs.length := by omega
    split
    · rw [ih, harith]
    · rw [ih, harith]

theorem classifyLoop_sentinels : ∀ bs : List Nat, (∀ b ∈ bs, b = 0 ∨ b = 255) →
    ∀ (i : Nat) (h : Bool) (l : Nat), classifyLoop bs i h l = (h, l) := by
  intro bs
  induction bs with
  | nil => intro _ i h l; rfl
  | cons b bs ih =>
    intro hall i h l
    have hb := hall b (by simp)
    simp only [classifyLoop]
    split
    · next hcond => rcases hb with h0 | h0 <;> simp [h0] at hcond
    · exact ih (fun x hx => hall x (List.mem_cons_of_mem _ hx)) (i + 1) h l

theorem classifyLoop_le (bs : List Nat) (i : Nat) (h : Bool) (l : Nat) (hl : l ≤ i) :
    (classifyLoop bs i h l).2 ≤ i + bs.length := by
  induction bs generalizing i h l with
  | nil => simpa [classifyLoop] using hl
  | cons b bs ih =>
    simp only [classifyLoop, List.length_cons]
    split
    · have := ih (i + 1) true (i + 1) (Nat.le_refl _)
      omega
    · have := ih (i + 1) h l (by omega)
      omega

theorem classify_le (buf : List Nat) : (classify buf).2 ≤ buf.length := by
  have := classifyLoop_le buf 0 false 0 (Nat.le_refl 0)
  simpa [classify] using this

theorem classify_sentinels (buf : List Nat) (hall : ∀ b ∈ buf, b = 0 ∨ b = 255) :
    classify buf = (false, 0) := classifyLoop_sentinels buf hall 0 false 0

theorem classify_last (buf : List Nat) (i : Nat) (hi : i < buf.length)
    (hb0 : buf[i] ≠ 0) (hb255 : buf[i] ≠ 255)
    (hafter : ∀ j, i < j → (hj : j < buf.length) → buf[j] = 0 ∨ buf[j] = 255) :
    classify buf = (true, i + 1) := by
  have hsplit : buf = buf.take i ++ buf[i] :: buf.drop (i + 1) := by
    conv_lhs => rw [← List.take_append_drop i buf]
    rw [List.drop_eq_getElem_cons hi]
  have htake : (buf.take i).length = i := by
    simp [List.length_take]
    omega
  have hdropall : ∀ b ∈ buf.drop (i + 1), b = 0 ∨ b = 255 := by
    intro b hbmem
    rw [List.mem_iff_getElem] at hbmem
    obtain ⟨k, hk, hbk⟩ := hbmem
    rw [List.getElem_drop] at hbk
    subst hbk
    have hk' : i + 1 + k < buf.length := by
      simp only [List.length_drop] at hk
      omega
    exact hafter (i + 1 + k) (by omega) hk'
  rw [classify]
  conv_lhs => rw [hsplit]
  rw [classifyLoop_append, htake]
  have hmid : classifyLoop (buf[i] :: buf.drop (i + 1)) (0 + i)
      (classifyLoop (buf.take i) 0 false 0).1 (classifyLoop (buf.take i) 0 false 0).2 =
      classifyLoop (buf.drop (i + 1)) (0 + i + 1) true (0 + i + 1) := by
    simp only [classifyLoop]
    split
    · rfl
    · next hcond =>
      exfalso
      simp only [Bool.and_eq_true, bne_iff_ne, ne_eq] at hcond
      exact hcond ⟨hb0, hb255⟩
  rw [hmid, classifyLoop_sentinels _ hdropall _ _ _]
  simp

theorem strLength_mk (cs : List Char) : (String.mk cs).length = cs.length := rfl

theorem hexChars_length (bs : List Nat) : (hexChars bs).length = 3 * bs.length := by
  induction bs with
  | nil => rfl
  | cons b bs ih =>
    simp [hexChars, hex2c, ih]
    omega

theorem renderHex_length (bs : List Nat) : (renderHex bs).length = 3 * bs.length - 1 := by
  simp [renderHex, strLength_mk, List.length_dropLast, hexChars_length]

theorem renderAscii_length (bs : List Nat) : (renderAscii bs).length = bs.length := by
  simp [renderAscii, strLength_mk]

theorem hexChars_concat (b : Nat) (bs : List Nat) :
    ∃ ys, hexChars (b :: bs) = ys ++ [' '] := by
  induction bs generalizing b with
  | nil => exact ⟨hex2c b, rfl⟩
  | cons c cs ih =>
    obtain ⟨ys, hys⟩ := ih c
    refine ⟨hex2c b ++ ' ' :: ys, ?_⟩
    have h1 : hexChars (b :: c :: cs) = hex2c b ++ ' ' :: hexChars (c :: cs) := rfl
    rw [h1, hys]
    simp

theorem renderHex_sep (b : Nat) (bs : List Nat) :
    renderHex (b :: bs) = String.mk (sepBySpace ((b :: bs).map hex2c)) := by
  suffices h : ∀ bs b, (hexChars (b :: bs)).dropLast = sepBySpace ((b :: bs).map hex2c) by
    simp [renderHex, h]
  intro bs
  induction bs with
  | nil =>
    intro b
    simp [hexChars, hex2c, sepBySpace, List.dropLast]
  | cons c cs ih =>
    intro b
    obtain ⟨ys, hys⟩ := hexChars_concat c cs
    have h1 : hexChars (b :: c :: cs) = (hex2c b ++ ' ' :: ys) ++ [' '] := by
      have h0 : hexChars (b :: c :: cs) = hex2c b ++ ' ' :: hexChars (c :: cs) := rfl
      rw [h0, hys]
      simp
    rw [h1, List.dropLast_concat]
    have h2 : sepBySpace ((b :: c :: cs).map hex2c) =
        hex2c b ++ ' ' :: sepBySpace ((c :: cs).map hex2c) := by
      simp [sepBySpace]
    rw [h2, ← ih c, hys, List.dropLast_concat]

-- ==================== Frame lemmas for the step functions ====================

theorem TX.reconnect_frame_tx (st : TX.State) (a b : Nat) (c d : Bool) :
    (TX.mqttReconnect st a b c d).1.cfg = st.cfg ∧
    (TX.mqttReconnect st a b c d).1.apMode = st.apMode ∧
    (TX.mqttReconnect st a b c d).1.apStartTime = st.apStartTime ∧
    (TX.mqttReconnect st a b c d).1.wifiConnected = st.wifiConnected ∧
    (TX.mqttReconnect st a b c d).1.txCount = st.txCount ∧
    (TX.mqttReconnect st a b c d).1.lastTx = st.lastTx ∧
    (TX.mqttReconnect st a b c d).1.lastLedOff = st.lastLedOff ∧
    (TX.mqttReconnect st a b c d).1.ledOn = st.ledOn ∧
    (TX.mqttReconnect st a b c d).1.lastSpiResult = st.lastSpiResult := by
  unfold TX.mqttReconnect
  repeat' split <;> simp_all

theorem RX.reconnect_frame_rx (st : RX.State) (a b : Nat) (c d : Bool) :
    (RX.mqttReconnect st a b c d).1.cfg = st.cfg ∧
    (RX.mqttReconnect st a b c d).1.apMode = st.apMode ∧
    (RX.mqttReconnect st a b c d).1.apStartTime = st.apStartTime ∧
    (RX.mqttReconnect st a b c d).1.wifiConnected = st.wifiConnected ∧
    (RX.mqttReconnect st a b c d).1.rxCount = st.rxCount ∧
    (RX.mqttReconnect st a b c d).1.lastRx = st.lastRx ∧
    (RX.mqttReconnect st a b c d).1.lastLedOff = st.lastLedOff ∧
    (RX.mqttReconnect st a b c d).1.ledOn = st.ledOn ∧
    (RX.mqttReconnect st a b c d).1.lastSpiResult = st.lastSpiResult ∧
    (RX.mqttReconnect st a b c d).1.lastRxData = st.lastRxData ∧
    (RX.mqttReconnect st a b c d).1.lastRxAscii = st.lastRxAscii ∧
    (RX.mqttReconnect st a b c d).1.rxLen = st.rxLen := by
  unfold RX.mqttReconnect
  repeat' split <;> simp_all

theorem RX.spiReceive_char (st : RX.State) (resp : List Nat) (t : Nat) (conn : Bool) :
    (RX.spiReceive st resp t conn).1.lastSpiResult =
      (if (classify (mkRxBuf resp)).1 then 0 else 1) ∧
    (RX.spiReceive st resp t conn).1.rxCount =
      (if (classify (mkRxBuf resp)).1 then st.rxCount + 1 else st.rxCount) ∧
    (RX.spiReceive st resp t conn).1.rxLen = (classify (mkRxBuf resp)).2 ∧
    (RX.spiReceive st resp t conn).1.apMode = st.apMode ∧
    (RX.spiReceive st resp t conn).1.apStartTime = st.apStartTime ∧
    (RX.spiReceive st resp t conn).1.lastRx = st.lastRx ∧
    (RX.spiReceive st resp t conn).1.ledOn = ((classify (mkRxBuf resp)).1 || st.ledOn) ∧
    ((classify (mkRxBuf resp)).1 = true →
      (RX.spiReceive st resp t conn).1.lastLedOff = w32 (t + RX.LED_FLASH_MS)) := by
  unfold RX.spiReceive
  split <;> simp_all

theorem RX.spiReceive_strings (st : RX.State) (resp : List Nat) (t : Nat) (conn : Bool) :
    (RX.spiReceive st resp t conn).1.lastRxData.length ≤ 95 ∧
    (RX.spiReceive st resp t conn).1.lastRxAscii.length ≤ 32 := by
  have hbound : ((mkRxBuf resp).take
      (min (classify (mkRxBuf resp)).2 RX_BUF_LEN)).length ≤ 32 := by
    simp only [List.length_take, mkRxBuf_length, RX_BUF_LEN]
    omega
  simp only [RX.spiReceive]
  split <;> split <;>
    simp_all [renderHex_length, renderAscii_length, strLength_mk] <;> omega

theorem RX.spiReceive_lastSpiResult (st : RX.State) (resp : List Nat) (t : Nat) (conn : Bool) :
    (RX.spiReceive st resp t conn).1.lastSpiResult =
      (if (classify (mkRxBuf resp)).1 then 0 else 1) := by
  simp only [RX.spiReceive]
  split <;> simp_all

theorem RX.spiReceive_rxCount (st : RX.State) (resp : List Nat) (t : Nat) (conn : Bool) :
    (RX.spiReceive st resp t conn).1.rxCount =
      (if (classify (mkRxBuf resp)).1 then st.rxCount + 1 else st.rxCount) := by
  simp only [RX.spiReceive]
  split <;> simp_all

theorem RX.spiReceive_rxLen (st : RX.State) (resp : List Nat) (t : Nat) (conn : Bool) :
    (RX.spiReceive st resp t conn).1.rxLen = (classify (mkRxBuf resp)).2 := by
  simp only [RX.spiReceive]
  split <;> simp_all

theorem RX.spiReceive_apMode (st : RX.State) (resp : List Nat) (t : Nat) (conn : Bool) :
    (RX.spiReceive st resp t conn).1.apMode = st.apMode := by
  simp only [RX.spiReceive]
  split <;> simp_all

theorem RX.spiReceive_apStartTime (st : RX.State) (resp : List Nat) (t : Nat) (conn : Bool) :
    (RX.spiReceive st resp t conn).1.apStartTime = st.apStartTime := by
  simp only [RX.spiReceive]
  split <;> simp_all

theorem RX.spiReceive_lastRx (st : RX.State) (resp : List Nat) (t : Nat) (conn : Bool) :
    (RX.spiReceive st resp t conn).1.lastRx = st.lastRx := by
  simp only [RX.spiReceive]
  split <;> simp_all

theorem RX.spiReceive_ledOn (st : RX.State) (resp : List Nat) (t : Nat) (conn : Bool) :
    (RX.spiReceive st resp t conn).1.ledOn = ((classify (mkRxBuf resp)).1 || st.ledOn) := by
  simp only [RX.spiReceive]
  split <;> simp_all

theorem RX.spiReceive_lastLedOff (st : RX.State) (resp : List Nat) (t : Nat) (conn : Bool) :
    (RX.spiReceive st resp t conn).1.lastLedOff =
      (if (classify (mkRxBuf resp)).1 then w32 (t + RX.LED_FLASH_MS) else st.lastLedOff) := by
  simp only [RX.spiReceive]
  split <;> simp_all

theorem RX.spiReceive_bounds3 (st : RX.State) (resp : List Nat) (t : Nat) (conn : Bool) :
    (RX.spiReceive st resp t conn).1.rxLen ≤ 32 ∧
    (RX.spiReceive st resp t conn).1.lastRxData.length ≤ 95 ∧
    (RX.spiReceive st resp t conn).1.lastRxAscii.length ≤ 32 := by
  refine ⟨?_, (RX.spiReceive_strings st resp t conn).1, (RX.spiReceive_strings st resp t conn).2⟩
  rw [RX.spiReceive_rxLen]
  have := classify_le (mkRxBuf resp)
  rwa [mkRxBuf_length] at this

-- ==================== Stage lemmas for the TX loop ====================

theorem TX.mqttStep_frame_tx (st : TX.State) (inp : TX.Input) :
    (TX.mqttStep st inp).cfg = st.cfg ∧
    (TX.mqttStep st inp).apMode = st.apMode ∧
    (TX.mqttStep st inp).apStartTime = st.apStartTime ∧
    (TX.mqttStep st inp).wifiConnected = st.wifiConnected ∧
    (TX.mqttStep st inp).txCount = st.txCount ∧
    (TX.mqttStep st inp).lastTx = st.lastTx ∧
    (TX.mqttStep st inp).lastLedOff = st.lastLedOff ∧
    (TX.mqttStep st inp).ledOn = st.ledOn ∧
    (TX.mqttStep st inp).lastSpiResult = st.lastSpiResult := by
  unfold TX.mqttStep
  split
  · exact TX.reconnect_frame_tx st inp.tMqttChk inp.tMqttMark inp.connAtRec inp.connectOk
  · exact ⟨rfl, rfl, rfl, rfl, rfl, rfl, rfl, rfl, rfl⟩

theorem TX.busStep_due_tx (st : TX.State) (inp : TX.Input)
    (h : busDue inp.tChk st.lastTx = true) :
    TX.busStep st inp =
      (TX.spiTransmit { st with lastTx := w32 inp.tMark } inp.tArm inp.connAtTx).1 := by
  unfold TX.busStep
  simp [h]

theorem TX.busStep_not_due_tx (st : TX.State) (inp : TX.Input)
    (h : busDue inp.tChk st.lastTx = false) : TX.busStep st inp = st := by
  unfold TX.busStep
  simp [h]

theorem TX.busStep_ap_tx (st : TX.State) (inp : TX.Input) :
    (TX.busStep st inp).apMode = st.apMode ∧
    (TX.busStep st inp).apStartTime = st.apStartTime := by
  unfold TX.busStep TX.spiTransmit
  split <;> exact ⟨rfl, rfl⟩

theorem TX.busStep_count_tx (st : TX.State) (inp : TX.Input) :
    (TX.busStep st inp).txCount = st.txCount ∨
    (TX.busStep st inp).txCount = st.txCount + 1 := by
  unfold TX.busStep TX.spiTransmit
  split
  · right; rfl
  · left; rfl

theorem TX.busStep_spi_tx (st : TX.State) (inp : TX.Input) :
    (TX.busStep st inp).lastSpiResult = st.lastSpiResult ∨
    (TX.busStep st inp).lastSpiResult = 0 := by
  unfold TX.busStep TX.spiTransmit
  split
  · right; rfl
  · left; rfl

theorem TX.ledStep_frame_tx (st : TX.State) (t : Nat) :
    (TX.ledStep st t).cfg = st.cfg ∧
    (TX.ledStep st t).apMode = st.apMode ∧
    (TX.ledStep st t).apStartTime = st.apStartTime ∧
    (TX.ledStep st t).wifiConnected = st.wifiConnected ∧
    (TX.ledStep st t).txCount = st.txCount ∧
    (TX.ledStep st t).lastTx = st.lastTx ∧
    (TX.ledStep st t).lastLedOff = st.lastLedOff ∧
    (TX.ledStep st t).lastSpiResult = st.lastSpiResult := by
  unfold TX.ledStep
  split <;> exact ⟨rfl, rfl, rfl, rfl, rfl, rfl, rfl, rfl⟩

theorem TX.ledStep_ledOn_tx (st : TX.State) (t : Nat) :
    (TX.ledStep st t).ledOn = (st.ledOn && !ledOffDue t st.lastLedOff) := by
  unfold TX.ledStep
  cases hL : st.ledOn <;> cases hD : ledOffDue t st.lastLedOff <;> simp_all

theorem TX.loopStep_state_tx (st : TX.State) (inp : TX.Input) :
    (TX.loopStep st inp).1 =
      TX.ledStep (TX.busStep (TX.mqttStep st inp) inp) inp.tLed := rfl

theorem TX.loopStep_flag_tx (st : TX.State) (inp : TX.Input) :
    (TX.loopStep st inp).2 = (st.apMode && apExpired inp.tAp st.apStartTime) := by
  obtain ⟨-, m2, m3, -, -, -, -, -, -⟩ := TX.mqttStep_frame_tx st inp
  obtain ⟨b1, b2⟩ := TX.busStep_ap_tx (TX.mqttStep st inp) inp
  obtain ⟨-, l2, l3, -, -, -, -, -⟩ :=
    TX.ledStep_frame_tx (TX.busStep (TX.mqttStep st inp) inp) inp.tLed
  have hflag : (TX.loopStep st inp).2 =
      ((TX.ledStep (TX.busStep (TX.mqttStep st inp) inp) inp.tLed).apMode &&
        apExpired inp.tAp
          (TX.ledStep (TX.busStep (TX.mqttStep st inp) inp) inp.tLed).apStartTime) := rfl
  rw [hflag, l2, b1, m2, l3, b2, m3]

theorem TX.loopStep_spi_tx (st : TX.State) (inp : TX.Input) :
    (TX.loopStep st inp).1.lastSpiResult = st.lastSpiResult ∨
    (TX.loopStep st inp).1.lastSpiResult = 0 := by
  obtain ⟨-, -, -, -, -, -, -, -, m9⟩ := TX.mqttStep_frame_tx st inp
  obtain ⟨-, -, -, -, -, -, -, l8⟩ :=
    TX.ledStep_frame_tx (TX.busStep (TX.mqttStep st inp) inp) inp.tLed
  rw [TX.loopStep_state_tx, l8]
  rcases TX.busStep_spi_tx (TX.mqttStep st inp) inp with h | h
  · rw [h, m9]; left; rfl
  · rw [h]; right; rfl

theorem TX.loopStep_count_mono_tx (st : TX.State) (inp : TX.Input) :
    st.txCount ≤ (TX.loopStep st inp).1.txCount := by
  obtain ⟨-, -, -, -, m5, -, -, -, -⟩ := TX.mqttStep_frame_tx st inp
  obtain ⟨-, -, -, -, l5, -, -, -⟩ :=
    TX.ledStep_frame_tx (TX.busStep (TX.mqttStep st inp) inp) inp.tLed
  rw [TX.loopStep_state_tx, l5]
  rcases TX.busStep_count_tx (TX.mqttStep st inp) inp with h | h <;> rw [h, m5] <;> omega

theorem TX.loopStep_due_char_tx (st : TX.State) (inp : TX.Input)
    (hdue : busDue inp.tChk st.lastTx = true) :
    (TX.loopStep st inp).1.lastTx = w32 inp.tMark ∧
    (TX.loopStep st inp).1.lastSpiResult = 0 ∧
    (TX.loopStep st inp).1.txCount = st.txCount + 1 ∧
    (TX.loopStep st inp).1.ledOn =
      !ledOffDue inp.tLed (w32 (inp.tArm + TX.LED_FLASH_MS)) := by
  obtain ⟨-, -, -, -, m5, m6, -, -, -⟩ := TX.mqttStep_frame_tx st inp
  have hb := TX.busStep_due_tx (TX.mqttStep st inp) inp (by rw [m6]; exact hdue)
  obtain ⟨-, -, -, -, l5, l6, -, l8⟩ :=
    TX.ledStep_frame_tx
      ((TX.spiTransmit { TX.mqttStep st inp with lastTx := w32 inp.tMark }
        inp.tArm inp.connAtTx).1) inp.tLed
  rw [TX.loopStep_state_tx, hb]
  refine ⟨?_, ?_, ?_, ?_⟩
  · rw [l6]; rfl
  · rw [l8]; rfl
  · rw [l5]
    show (TX.mqttStep st inp).txCount + 1 = st.txCount + 1
    rw [m5]
  · rw [TX.ledStep_ledOn_tx]
    show (true && !ledOffDue inp.tLed (w32 (inp.tArm + TX.LED_FLASH_MS))) = _
    rw [Bool.true_and]

-- ==================== Stage lemmas for the RX loop ====================

theorem RX.mqttStep_frame_rx (st : RX.State) (inp : RX.Input) :
    (RX.mqttStep st inp).cfg = st.cfg ∧
    (RX.mqttStep st inp).apMode = st.apMode ∧
    (RX.mqttStep st inp).apStartTime = st.apStartTime ∧
    (RX.mqttStep st inp).wifiConnected = st.wifiConnected ∧
    (RX.mqttStep st inp).rxCount = st.rxCount ∧
    (RX.mqttStep st inp).lastRx = st.lastRx ∧
    (RX.mqttStep st inp).lastLedOff = st.lastLedOff ∧
    (RX.mqttStep st inp).ledOn = st.ledOn ∧
    (RX.mqttStep st inp).lastSpiResult = st.lastSpiResult ∧
    (RX.mqttStep st inp).lastRxData = st.lastRxData ∧
    (RX.mqttStep st inp).lastRxAscii = st.lastRxAscii ∧
    (RX.mqttStep st inp).rxLen = st.rxLen := by
  unfold RX.mqttStep
  split
  · exact RX.reconnect_frame_rx st inp.tMqttChk inp.tMqttMark inp.connAtRec inp.connectOk
  · exact ⟨rfl, rfl, rfl, rfl, rfl, rfl, rfl, rfl, rfl, rfl, rfl, rfl⟩

theorem RX.busStep_due_rx (st : RX.State) (inp : RX.Input)
    (h : busDue inp.tChk st.lastRx = true) :
    RX.busStep st inp =
      (RX.spiReceive { st with lastRx := w32 inp.tMark }
        inp.resp inp.tArm inp.connAtRx).1 := by
  unfold RX.busStep
  simp [h]

theorem RX.busStep_not_due_rx (st : RX.State) (inp : RX.Input)
    (h : busDue inp.tChk st.lastRx = false) : RX.busStep st inp = st := by
  unfold RX.busStep
  simp [h]

theorem RX.busStep_ap_rx (st : RX.State) (inp : RX.Input) :
    (RX.busStep st inp).apMode = st.apMode ∧
    (RX.busStep st inp).apStartTime = st.apStartTime := by
  unfold RX.busStep
  split
  · exact ⟨by rw [RX.spiReceive_apMode], by rw [RX.spiReceive_apStartTime]⟩
  · exact ⟨rfl, rfl⟩

theorem RX.busStep_count_rx (st : RX.State) (inp : RX.Input) :
    (RX.busStep st inp).rxCount = st.rxCount ∨
    (RX.busStep st inp).rxCount = st.rxCount + 1 := by
  unfold RX.busStep
  split
  · rw [RX.spiReceive_rxCount]
    split
    · right; rfl
    · left; rfl
  · left; rfl

theorem RX.busStep_spi_rx (st : RX.State) (inp : RX.Input) :
    (RX.busStep st inp).lastSpiResult = st.lastSpiResult ∨
    (RX.busStep st inp).lastSpiResult = 0 ∨
    (RX.busStep st inp).lastSpiResult = 1 := by
  unfold RX.busStep
  split
  · rw [RX.spiReceive_lastSpiResult]
    split
    · right; left; rfl
    · right; right; rfl
  · left; rfl

theorem RX.busStep_bounds (st : RX.State) (inp : RX.Input)
    (h1 : st.rxLen ≤ 32) (h2 : st.lastRxData.length ≤ 95)
    (h3 : st.lastRxAscii.length ≤ 32) :
    (RX.busStep st inp).rxLen ≤ 32 ∧
    (RX.busStep st inp).lastRxData.length ≤ 95 ∧
    (RX.busStep st inp).lastRxAscii.length ≤ 32 := by
  unfold RX.busStep
  split
  · exact RX.spiReceive_bounds3 _ _ _ _
  · exact ⟨h1, h2, h3⟩

theorem RX.ledStep_frame_rx (st : RX.State) (t : Nat) :
    (RX.ledStep st t).cfg = st.cfg ∧
    (RX.ledStep st t).apMode = st.apMode ∧
    (RX.ledStep st t).apStartTime = st.apStartTime ∧
    (RX.ledStep st t).wifiConnected = st.wifiConnected ∧
    (RX.ledStep st t).rxCount = st.rxCount ∧
    (RX.ledStep st t).lastRx = st.lastRx ∧
    (RX.ledStep st t).lastLedOff = st.lastLedOff ∧
    (RX.ledStep st t).lastSpiResult = st.lastSpiResult ∧
    (RX.ledStep st t).lastRxData = st.lastRxData ∧
    (RX.ledStep st t).lastRxAscii = st.lastRxAscii ∧
    (RX.ledStep st t).rxLen = st.rxLen := by
  unfold RX.ledStep
  split <;> exact ⟨rfl, rfl, rfl, rfl, rfl, rfl, rfl, rfl, rfl, rfl, rfl⟩

theorem RX.ledStep_ledOn_rx (st : RX.State) (t : Nat) :
    (RX.ledStep st t).ledOn = (st.ledOn && !ledOffDue t st.lastLedOff) := by
  unfold RX.ledStep
  cases hL : st.ledOn <;> cases hD : ledOffDue t st.lastLedOff <;> simp_all

theorem RX.loopStep_state_rx (st : RX.State) (inp : RX.Input) :
    (RX.loopStep st inp).1 =
      RX.ledStep (RX.busStep (RX.mqttStep st inp) inp) inp.tLed := rfl

theorem RX.loopStep_flag_rx (st : RX.State) (inp : RX.Input) :
    (RX.loopStep st inp).2 = (st.apMode && apExpired inp.tAp st.apStartTime) := by
  obtain ⟨-, m2, m3, -, -, -, -, -, -, -, -, -⟩ := RX.mqttStep_frame_rx st inp
  obtain ⟨b1, b2⟩ := RX.busStep_ap_rx (RX.mqttStep st inp) inp
  obtain ⟨-, l2, l3, -, -, -, -, -, -, -, -⟩ :=
    RX.ledStep_frame_rx (RX.busStep (RX.mqttStep st inp) inp) inp.tLed
  have hflag : (RX.loopStep st inp).2 =
      ((RX.ledStep (RX.busStep (RX.mqttStep st inp) inp) inp.tLed).apMode &&
        apExpired inp.tAp
          (RX.ledStep (RX.busStep (RX.mqttStep st inp) inp) inp.tLed).apStartTime) := rfl
  rw [hflag, l2, b1, m2, l3, b2, m3]

theorem RX.loopStep_spi_rx (st : RX.State) (inp : RX.Input) :
    (RX.loopStep st inp).1.lastSpiResult = st.lastSpiResult ∨
    (RX.loopStep st inp).1.lastSpiResult = 0 ∨
    (RX.loopStep st inp).1.lastSpiResult = 1 := by
  obtain ⟨-, -, -, -, -, -, -, -, m9, -, -, -⟩ := RX.mqttStep_frame_rx st inp
  obtain ⟨-, -, -, -, -, -, -, l8, -, -, -⟩ :=
    RX.ledStep_frame_rx (RX.busStep (RX.mqttStep st inp) inp) inp.tLed
  rw [RX.loopStep_state_rx, l8]
  rcases RX.busStep_spi_rx (RX.mqttStep st inp) inp with h | h | h
  · rw [h, m9]; left; rfl
  · rw [h]; right; left; rfl
  · rw [h]; right; right; rfl

theorem RX.loopStep_count_mono_rx (st : RX.State) (inp : RX.Input) :
    st.rxCount ≤ (RX.loopStep st inp).1.rxCount := by
  obtain ⟨-, -, -, -, m5, -, -, -, -, -, -, -⟩ := RX.mqttStep_frame_rx st inp
  obtain ⟨-, -, -, -, l5, -, -, -, -, -, -⟩ :=
    RX.ledStep_frame_rx (RX.busStep (RX.mqttStep st inp) inp) inp.tLed
  rw [RX.loopStep_state_rx, l5]
  rcases RX.busStep_count_rx (RX.mqttStep st inp) inp with h | h <;> rw [h, m5] <;> omega

theorem RX.loopStep_bounds (st : RX.State) (inp : RX.Input)
    (h1 : st.rxLen ≤ 32) (h2 : st.lastRxData.length ≤ 95)
    (h3 : st.lastRxAscii.length ≤ 32) :
    (RX.loopStep st inp).1.rxLen ≤ 32 ∧
    (RX.loopStep st inp).1.lastRxData.length ≤ 95 ∧
    (RX.loopStep st inp).1.lastRxAscii.length ≤ 32 := by
  obtain ⟨-, -, -, -, -, -, -, -, -, m10, m11, m12⟩ := RX.mqttStep_frame_rx st inp
  have hbb := RX.busStep_bounds (RX.mqttStep st inp) inp
    (by rw [m12]; exact h1) (by rw [m10]; exact h2) (by rw [m11]; exact h3)
  obtain ⟨-, -, -, -, -, -, -, -, l10, l11, l12⟩ :=
    RX.ledStep_frame_rx (RX.busStep (RX.mqttStep st inp) inp) inp.tLed
  rw [RX.loopStep_state_rx]
  exact ⟨by rw [l12]; exact hbb.1, by rw [l10]; exact hbb.2.1, by rw [l11]; exact hbb.2.2⟩

theorem RX.loopStep_due_char_rx (st : RX.State) (inp : RX.Input)
    (hdue : busDue inp.tChk st.lastRx = true) :
    (RX.loopStep st inp).1.lastRx = w32 inp.tMark ∧
    (RX.loopStep st inp).1.lastSpiResult =
      (if (classify (mkRxBuf inp.resp)).1 then 0 else 1) ∧
    (RX.loopStep st inp).1.rxCount =
      (if (classify (mkRxBuf inp.resp)).1 then st.rxCount + 1 else st.rxCount) := by
  obtain ⟨-, -, -, -, m5, m6, -, -, -, -, -, -⟩ := RX.mqttStep_frame_rx st inp
  have hb := RX.busStep_due_rx (RX.mqttStep st inp) inp (by rw [m6]; exact hdue)
  obtain ⟨-, -, -, -, l5, l6, -, l8, -, -, -⟩ :=
    RX.ledStep_frame_rx
      ((RX.spiReceive { RX.mqttStep st inp with lastRx := w32 inp.tMark }
        inp.resp inp.tArm inp.connAtRx).1) inp.tLed
  rw [RX.loopStep_state_rx, hb]
  refine ⟨?_, ?_, ?_⟩
  · rw [l6, RX.spiReceive_lastRx]
  · rw [l8, RX.spiReceive_lastSpiResult]
  · rw [l5, RX.spiReceive_rxCount]
    show (if (classify (mkRxBuf inp.resp)).1 then (RX.mqttStep st inp).rxCount + 1
          else (RX.mqttStep st inp).rxCount) = _
    rw [m5]

theorem RX.loopStep_led (st : RX.State) (inp : RX.Input)
    (hdue : busDue inp.tChk st.lastRx = true)
    (hdat : (classify (mkRxBuf inp.resp)).1 = true) :
    (RX.loopStep st inp).1.ledOn =
      !ledOffDue inp.tLed (w32 (inp.tArm + RX.LED_FLASH_MS)) := by
  obtain ⟨-, -, -, -, -, m6, -, -, -, -, -, -⟩ := RX.mqttStep_frame_rx st inp
  have hb := RX.busStep_due_rx (RX.mqttStep st inp) inp (by rw [m6]; exact hdue)
  rw [RX.loopStep_state_rx, hb, RX.ledStep_ledOn_rx, RX.spiReceive_ledOn,
    RX.spiReceive_lastLedOff, hdat]
  simp

-- ==================== Boot and reconnect helper lemmas ====================

theorem TX.boot_spi (cfg : Config) (w : Bool) (t : Nat) :
    (TX.boot cfg w t).lastSpiResult = -1 := by
  unfold TX.boot
  split <;> rfl

theorem RX.boot_fields (cfg : Config) (w : Bool) (t : Nat) :
    (RX.boot cfg w t).lastSpiResult = -1 ∧ (RX.boot cfg w t).rxLen = 0 ∧
    (RX.boot cfg w t).lastRxData = "" ∧ (RX.boot cfg w t).lastRxAscii = "" := by
  unfold RX.boot
  split <;> exact ⟨rfl, rfl, rfl, rfl⟩

theorem RX.spiReceive_strings_eq (st : RX.State) (resp : List Nat) (t : Nat) (conn : Bool) :
    (RX.spiReceive st resp t conn).1.lastRxData =
      (if (classify (mkRxBuf resp)).1 && decide (0 < (classify (mkRxBuf resp)).2) then
        renderHex ((mkRxBuf resp).take (min (classify (mkRxBuf resp)).2 RX_BUF_LEN))
      else "") ∧
    (RX.spiReceive st resp t conn).1.lastRxAscii =
      (if (classify (mkRxBuf resp)).1 && decide (0 < (classify (mkRxBuf resp)).2) then
        renderAscii ((mkRxBuf resp).take (min (classify (mkRxBuf resp)).2 RX_BUF_LEN))
      else "") := by
  simp only [RX.spiReceive]
  split <;> exact ⟨rfl, rfl⟩

theorem TX.reconnect_no_server (st : TX.State) (a b : Nat) (c d : Bool)
    (h : st.cfg.ms = "") : TX.mqttReconnect st a b c d = (st, none) := by
  unfold TX.mqttReconnect
  rw [if_pos h]

theorem TX.reconnect_connected (st : TX.State) (a b : Nat) (d : Bool) :
    TX.mqttReconnect st a b true d = (st, none) := by
  unfold TX.mqttReconnect
  split
  · rfl
  · rfl

theorem TX.reconnect_window (st : TX.State) (a b : Nat) (d : Bool)
    (h : sub32 a st.lastMqttReconnect < MQTT_RECONNECT_MS) :
    TX.mqttReconnect st a b false d = (st, none) := by
  have hw : mqttWindow a st.lastMqttReconnect = true := by
    simp [mqttWindow, h]
  unfold TX.mqttReconnect
  split
  · rfl
  · simp [hw]

theorem TX.reconnect_attempt (st : TX.State) (a b : Nat) (d : Bool)
    (hms : st.cfg.ms ≠ "")
    (hwin : ¬ sub32 a st.lastMqttReconnect < MQTT_RECONNECT_MS) :
    TX.mqttReconnect st a b false d =
      ({ st with lastMqttReconnect := w32 b, mqttConnected := d },
        some (if st.cfg.mu ≠ "" then ConnectKind.withCreds else ConnectKind.anonymous)) := by
  have hw : mqttWindow a st.lastMqttReconnect = false := by
    simp [mqttWindow, hwin]
  unfold TX.mqttReconnect
  rw [if_neg hms]
  simp only [hw, Bool.false_eq_true, if_false]
  split <;> simp_all

theorem TX.reconnect_idem (st : TX.State) (a b : Nat) (d : Bool)
    (hms : st.cfg.ms ≠ "")
    (hwin : ¬ sub32 a st.lastMqttReconnect < MQTT_RECONNECT_MS)
    (a2 b2 : Nat) (c2 d2 : Bool) (h2 : sub32 a2 b < MQTT_RECONNECT_MS) :
    TX.mqttReconnect (TX.mqttReconnect st a b false d).1 a2 b2 c2 d2 =
      ((TX.mqttReconnect st a b false d).1, none) := by
  rw [TX.reconnect_attempt st a b d hms hwin]
  cases c2
  · apply TX.reconnect_window
    show sub32 a2 (w32 b) < MQTT_RECONNECT_MS
    rw [sub32_w32_right]
    exact h2
  · exact TX.reconnect_connected _ a2 b2 d2

-- ==================== Claim theorems ====================

/-- C1: for the receiving role, a 32-byte exchange whose bytes are all 0x00
or 0xFF classifies as Success-empty (lastSpiResult 1) with empty hex and
ascii strings; otherwise it classifies as Success-with-data (lastSpiResult
0) and the classified payload length is the index of the last non-sentinel
byte plus one; in particular a buffer whose only non-sentinel byte is at
index 3 gives Success-with-data with payload length 4. -/
theorem C1_rx_classification :
    (∀ (st : RX.State) (resp : List Nat) (tArm : Nat) (conn : Bool),
      resp.length = 32 → (∀ x ∈ resp, x = 0 ∨ x = 255) →
      (RX.spiReceive st resp tArm conn).1.lastSpiResult = 1 ∧
      (RX.spiReceive st resp tArm conn).1.lastRxData = "" ∧
      (RX.spiReceive st resp tArm conn).1.lastRxAscii = "") ∧
    (∀ (st : RX.State) (resp : List Nat) (tArm : Nat) (conn : Bool) (i : Nat),
      resp.length = 32 → (∀ x ∈ resp, x < 256) →
      (hi : i < resp.length) → resp[i] ≠ 0 → resp[i] ≠ 255 →
      (∀ j, i < j → (hj : j < resp.length) → resp[j] = 0 ∨ resp[j] = 255) →
      (RX.spiReceive st resp tArm conn).1.lastSpiResult = 0 ∧
      (RX.spiReceive st resp tArm conn).1.rxLen = i + 1) ∧
    ((RX.spiReceive rxB oneAt3 0 false).1.lastSpiResult = 0 ∧
      (RX.spiReceive rxB oneAt3 0 false).1.rxLen = 4) := by
  refine ⟨?_, ?_, by decide, by decide⟩
  · intro st resp tArm conn hlen hall
    have hlt : ∀ x ∈ resp, x < 256 := by
      intro x hx
      rcases hall x hx with h | h <;> omega
    have hbuf : mkRxBuf resp = resp := mkRxBuf_eq_self resp hlen hlt
    have hcl : classify (mkRxBuf resp) = (false, 0) := by
      rw [hbuf]
      exact classify_sentinels resp hall
    obtain ⟨hd, ha⟩ := RX.spiReceive_strings_eq st resp tArm conn
    refine ⟨?_, ?_, ?_⟩
    · rw [RX.spiReceive_lastSpiResult, hcl]
      simp
    · rw [hd, hcl]
      rfl
    · rw [ha, hcl]
      rfl
  · intro st resp tArm conn i hlen hlt hi hb0 hb255 hafter
    have hbuf : mkRxBuf resp = resp := mkRxBuf_eq_self resp hlen hlt
    have hcl : classify (mkRxBuf resp) = (true, i + 1) := by
      rw [hbuf]
      exact classify_last resp i hi hb0 hb255 hafter
    constructor
    · rw [RX.spiReceive_lastSpiResult, hcl]
      simp
    · rw [RX.spiReceive_rxLen, hcl]

/-- C1 witness at a concrete all-zero exchange. -/
theorem C1_rx_classification_witness :
    (List.replicate 32 0).length = 32 ∧
    (∀ x ∈ List.replicate 32 (0 : Nat), x = 0 ∨ x = 255) ∧
    (RX.spiReceive rxB (List.replicate 32 0) 0 false).1.lastSpiResult = 1 :=
  ⟨by decide, by decide,
    (C1_rx_classification.1 rxB (List.replicate 32 0) 0 false
      (by decide) (by decide)).1⟩

/-- C2 counterexample: the indicator-off check `millis() >= lastLedOff` is
not wraparound-correct.  An indicator armed at 2^32 - 10 ms stores the
wrapped off-deadline 40; the next invocation only 5 ms later (5 < the 50 ms
flash) already turns the LED off. -/
theorem C2_timers_counterexample :
    sub32 (u32Mod - 5) (u32Mod - 10) = 5 ∧ (5 : Nat) < TX.LED_FLASH_MS ∧
    wrapLedState.ledOn = true ∧
    wrapLedState.lastLedOff = w32 ((u32Mod - 10) + TX.LED_FLASH_MS) ∧
    wrapLedInput.tLed = u32Mod - 5 ∧
    (TX.loopStep wrapLedState wrapLedInput).1.ledOn = false :=
  ⟨by decide, by decide, rfl, rfl, rfl, by decide⟩

/-- C2 (amended): the subtraction-based timers — bus transaction, MQTT
reconnect backoff and AP safety window — compute eligibility from the
modular difference sub32 now last and are invariant under shifting both
stamps, hence correct across counter wraparound; the indicator-off check
however compares now >= offTime directly and fires exactly at the flash
duration only while the stored deadline did not wrap past the counter. -/
theorem C2_timers :
    (∀ now last c, busDue (now + c) (last + c) = busDue now last) ∧
    (∀ now last c, mqttWindow (now + c) (last + c) = mqttWindow now last) ∧
    (∀ now start c, apExpired (now + c) (start + c) = apExpired now start) ∧
    (∀ tA tL, w32 tA + TX.LED_FLASH_MS < u32Mod → w32 tA ≤ w32 tL →
      (ledOffDue tL (w32 (tA + TX.LED_FLASH_MS)) = true ↔
        TX.LED_FLASH_MS ≤ sub32 tL tA)) := by
  refine ⟨fun now last c => ?_, fun now last c => ?_, fun now start c => ?_,
    fun tA tL hnw hle => ?_⟩
  · unfold busDue
    rw [sub32_shift]
  · unfold mqttWindow
    rw [sub32_shift]
  · unfold apExpired
    rw [sub32_shift]
  · have hA := w32_lt tA
    have hL := w32_lt tL
    have h1 : w32 (tA + TX.LED_FLASH_MS) = w32 tA + TX.LED_FLASH_MS := by
      simp only [w32, u32Mod, TX.LED_FLASH_MS] at *
      omega
    rw [h1, sub32_of_le tL tA hle]
    unfold ledOffDue
    simp only [decide_eq_true_eq]
    omega

/-- C2 witness for the amended indicator clause at a concrete instant. -/
theorem C2_timers_witness :
    w32 100 + TX.LED_FLASH_MS < u32Mod ∧ w32 100 ≤ w32 120 ∧
    (ledOffDue 120 (w32 (100 + TX.LED_FLASH_MS)) = true ↔
      TX.LED_FLASH_MS ≤ sub32 120 100) :=
  ⟨by decide, by decide, C2_timers.2.2.2 100 120 (by decide) (by decide)⟩

/-- C3 counterexample: an eligible RX invocation whose 32-byte response is
all zero performs the transaction — it remarks lastRx and sets
TransactionResult to Success-empty — but leaves the transaction counter
unchanged, so the counter does not increase on every transaction in the
receiving role. -/
theorem C3_transaction_counterexample :
    busDue emptyRxInput.tChk rxB.lastRx = true ∧
    (RX.loopStep rxB emptyRxInput).1.lastRx = 2000 ∧
    (RX.loopStep rxB emptyRxInput).1.lastSpiResult = 1 ∧
    (RX.loopStep rxB emptyRxInput).1.rxCount = rxB.rxCount :=
  ⟨by decide, by decide, by decide, by decide⟩

/-- C3 (amended): on every invocation with now - lastTransactionTime >=
2000 ms the step remarks the timestamp and performs exactly one bus
transaction, updating TransactionResult; the TX counter increments on every
transaction, while the RX counter increments exactly when the exchange
classifies as data-present and is unchanged on Success-empty; in both
roles the counter never decreases across an invocation and is reset only
by reboot. -/
theorem C3_transaction_step :
    (∀ (st : TX.State) (inp : TX.Input), busDue inp.tChk st.lastTx = true →
      (TX.loopStep st inp).1.lastTx = w32 inp.tMark ∧
      (TX.loopStep st inp).1.lastSpiResult = 0 ∧
      (TX.loopStep st inp).1.txCount = st.txCount + 1) ∧
    (∀ (st : TX.State) (inp : TX.Input), st.txCount ≤ (TX.loopStep st inp).1.txCount) ∧
    (∀ (st : RX.State) (inp : RX.Input), busDue inp.tChk st.lastRx = true →
      (RX.loopStep st inp).1.lastRx = w32 inp.tMark ∧
      (RX.loopStep st inp).1.lastSpiResult =
        (if (classify (mkRxBuf inp.resp)).1 then 0 else 1) ∧
      (RX.loopStep st inp).1.rxCount =
        (if (classify (mkRxBuf inp.resp)).1 then st.rxCount + 1 else st.rxCount)) ∧
    (∀ (st : RX.State) (inp : RX.Input), st.rxCount ≤ (RX.loopStep st inp).1.rxCount) := by
  refine ⟨fun st inp h => ?_, TX.loopStep_count_mono_tx, RX.loopStep_due_char_rx,
    RX.loopStep_count_mono_rx⟩
  obtain ⟨a, b, c, -⟩ := TX.loopStep_due_char_tx st inp h
  exact ⟨a, b, c⟩

/-- C3 witness: an eligible TX invocation from a fresh boot increments the
counter by one. -/
theorem C3_transaction_step_witness :
    busDue dueTxInput.tChk txB.lastTx = true ∧
    (TX.loopStep txB dueTxInput).1.txCount = txB.txCount + 1 :=
  ⟨by decide, (C3_transaction_step.1 txB dueTxInput (by decide)).2.2⟩

/-- C4: every classified non-empty payload is rendered as space-separated
two-digit uppercase hexadecimal (the trailing space of the "%02X " loop is
trimmed) and as printable ASCII where each byte outside 0x20..0x7E is
replaced by a dot; for payload bytes 48 45 4C 4C 4F the hex field reads
"48 45 4C 4C 4F" with no trailing space and the ascii field reads
"HELLO". -/
theorem C4_rendering :
    (∀ (x : Nat) (bs : List Nat),
      renderHex (x :: bs) = String.mk (sepBySpace ((x :: bs).map hex2c))) ∧
    (∀ x : Nat, asciiChar x = if 0x20 ≤ x ∧ x ≤ 0x7E then Char.ofNat x else '.') ∧
    (RX.spiReceive rxB helloResp 0 false).1.lastRxData = "48 45 4C 4C 4F" ∧
    (RX.spiReceive rxB helloResp 0 false).1.lastRxAscii = "HELLO" :=
  ⟨renderHex_sep, fun _ => rfl, by decide, by decide⟩

/-- C5 counterexample: POST /save with the unparsable port value "abc"
stores port 0 — String::toInt's failure value — not the 1883 baseline the
config held before the request. -/
theorem C5_save_port_counterexample :
    cfg0.mp = 1883 ∧
    (handleSave cfg0 (mpOnly ("abc"))).mp = 0 ∧ (0 : Nat) ≠ 1883 :=
  ⟨rfl, by decide, by decide⟩

/-- C5 (amended): a present mp field always stores toUInt16 (atol v), so an
unparsable value stores 0 (atol's failure value), not 1883; the 1883
baseline applies only when loading the config store with no stored port;
string fields are accepted verbatim truncated to their buffer bound
(size - 1 characters). -/
theorem C5_save_port :
    (∀ cfg v, (handleSave cfg (mpOnly v)).mp = toUInt16 (atol v)) ∧
    toUInt16 (atol ("abc")) = 0 ∧
    toUInt16 (atol ("")) = 0 ∧
    loadPort none = 1883 ∧
    (∀ cfg v, (handleSave cfg (ssidOnly v)).ssid = toCharArray v 33) ∧
    (∀ v, toCharArray v 33 = String.mk (v.data.take 32)) :=
  ⟨fun cfg v => rfl, by decide, by decide, rfl, fun cfg v => rfl, fun v => rfl⟩

/-- C6: in both roles, one scheduler invocation requests the full restart
exactly when the device is in Local (access-point) mode and
now - localModeStartTime > 300000 ms; so every invocation performs the
check and the device never stays in Local mode past the safety window
without restarting. -/
theorem C6_ap_safety :
    (∀ (st : TX.State) (inp : TX.Input), (TX.loopStep st inp).2 =
      (st.apMode && apExpired inp.tAp st.apStartTime)) ∧
    (∀ (st : RX.State) (inp : RX.Input), (RX.loopStep st inp).2 =
      (st.apMode && apExpired inp.tAp st.apStartTime)) :=
  ⟨TX.loopStep_flag_tx, RX.loopStep_flag_rx⟩

/-- C7: the telemetry reconnect operation is a no-op when no endpoint is
configured, when already connected, or within the 5000 ms backoff window;
an eligible attempt first marks the attempt time and connects with
credentials exactly when a username is configured, anonymously otherwise;
and calling it twice within one 5000 ms window performs exactly one
physical connect attempt — the second call is a no-op. -/
theorem C7_reconnect :
    (∀ (st : TX.State) (a b : Nat) (c d : Bool), st.cfg.ms = "" →
      TX.mqttReconnect st a b c d = (st, none)) ∧
    (∀ (st : TX.State) (a b : Nat) (d : Bool),
      TX.mqttReconnect st a b true d = (st, none)) ∧
    (∀ (st : TX.State) (a b : Nat) (d : Bool),
      sub32 a st.lastMqttReconnect < MQTT_RECONNECT_MS →
      TX.mqttReconnect st a b false d = (st, none)) ∧
    (∀ (st : TX.State) (a b : Nat) (d : Bool), st.cfg.ms ≠ "" →
      ¬ sub32 a st.lastMqttReconnect < MQTT_RECONNECT_MS →
      TX.mqttReconnect st a b false d =
        ({ st with lastMqttReconnect := w32 b, mqttConnected := d },
          some (if st.cfg.mu ≠ "" then ConnectKind.withCreds
                else ConnectKind.anonymous))) ∧
    (∀ (st : TX.State) (a b : Nat) (d : Bool) (a2 b2 : Nat) (c2 d2 : Bool),
      st.cfg.ms ≠ "" → ¬ sub32 a st.lastMqttReconnect < MQTT_RECONNECT_MS →
      sub32 a2 b < MQTT_RECONNECT_MS →
      TX.mqttReconnect (TX.mqttReconnect st a b false d).1 a2 b2 c2 d2 =
        ((TX.mqttReconnect st a b false d).1, none)) :=
  ⟨TX.reconnect_no_server, TX.reconnect_connected, TX.reconnect_window,
    TX.reconnect_attempt,
    fun st a b d a2 b2 c2 d2 hms hwin h2 =>
      TX.reconnect_idem st a b d hms hwin a2 b2 c2 d2 h2⟩

/-- C7 witness: a first eligible call followed 1000 ms later by a second
call that is a no-op. -/
theorem C7_reconnect_witness :
    (TX.boot cfgM false 0).cfg.ms ≠ "" ∧
    ¬ sub32 6000 (TX.boot cfgM false 0).lastMqttReconnect < MQTT_RECONNECT_MS ∧
    sub32 7000 6000 < MQTT_RECONNECT_MS ∧
    TX.mqttReconnect
        (TX.mqttReconnect (TX.boot cfgM false 0) 6000 6000 false false).1
        7000 7000 false false =
      ((TX.mqttReconnect (TX.boot cfgM false 0) 6000 6000 false false).1, none) :=
  ⟨by decide, by decide, by decide,
    C7_reconnect.2.2.2.2 (TX.boot cfgM false 0) 6000 6000 false 7000 7000 false false
      (by decide) (by decide) (by decide)⟩

/-- C8: within a single invocation, an indicator armed by that invocation's
bus transaction (step 4) is never turned off by the same invocation's
indicator check (step 5), provided the clock has not reached the stored
off-deadline at the check (the flash duration, 50 resp. 80 ms, is
nonzero). -/
theorem C8_led_ordering :
    (∀ (st : TX.State) (inp : TX.Input), busDue inp.tChk st.lastTx = true →
      w32 inp.tLed < w32 (inp.tArm + TX.LED_FLASH_MS) →
      (TX.loopStep st inp).1.ledOn = true) ∧
    (∀ (st : RX.State) (inp : RX.Input), busDue inp.tChk st.lastRx = true →
      (classify (mkRxBuf inp.resp)).1 = true →
      w32 inp.tLed < w32 (inp.tArm + RX.LED_FLASH_MS) →
      (RX.loopStep st inp).1.ledOn = true) := by
  constructor
  · intro st inp hdue hlt
    rw [(TX.loopStep_due_char_tx st inp hdue).2.2.2]
    have hoff : ledOffDue inp.tLed (w32 (inp.tArm + TX.LED_FLASH_MS)) = false := by
      simp only [ledOffDue, decide_eq_false_iff_not, not_le]
      exact hlt
    rw [hoff]
    rfl
  · intro st inp hdue hdat hlt
    rw [RX.loopStep_led st inp hdue hdat]
    have hoff : ledOffDue inp.tLed (w32 (inp.tArm + RX.LED_FLASH_MS)) = false := by
      simp only [ledOffDue, decide_eq_false_iff_not, not_le]
      exact hlt
    rw [hoff]
    rfl

/-- C8 witness: a due TX invocation at t = 2000 with the LED check read at
the same instant leaves the indicator on. -/
theorem C8_led_ordering_witness :
    busDue dueTxInput.tChk txB.lastTx = true ∧
    w32 dueTxInput.tLed < w32 (dueTxInput.tArm + TX.LED_FLASH_MS) ∧
    (TX.loopStep txB dueTxInput).1.ledOn = true :=
  ⟨by decide, by decide, C8_led_ordering.1 txB dueTxInput (by decide) (by decide)⟩

/-- C9: in every reachable state of either role the classification is never
Failure: the sender's lastSpiResult is only -1 or 0, so its status JSON spi
field is never "FAIL"; the receiver's lastSpiResult is only -1, 0 or 1 —
never 2 — so its spi field is never "FAIL" either. -/
theorem C9_never_fail :
    (∀ st : TX.State, TX.Reach st →
      (st.lastSpiResult = -1 ∨ st.lastSpiResult = 0) ∧
      TX.spiStatus st.lastSpiResult ≠ "FAIL") ∧
    (∀ st : RX.State, RX.Reach st →
      (st.lastSpiResult = -1 ∨ st.lastSpiResult = 0 ∨ st.lastSpiResult = 1) ∧
      st.lastSpiResult ≠ 2 ∧ RX.spiStatus st.lastSpiResult ≠ "FAIL") := by
  constructor
  · intro st h
    have hmem : st.lastSpiResult = -1 ∨ st.lastSpiResult = 0 := by
      induction h with
      | boot cfg w t => exact Or.inl (TX.boot_spi cfg w t)
      | step st1 inp hst ih =>
        rcases TX.loopStep_spi_tx st1 inp with he | he
        · rw [he]
          exact ih
        · exact Or.inr he
    refine ⟨hmem, ?_⟩
    rcases hmem with h1 | h1 <;> rw [h1] <;> decide
  · intro st h
    have hmem : st.lastSpiResult = -1 ∨ st.lastSpiResult = 0 ∨ st.lastSpiResult = 1 := by
      induction h with
      | boot cfg w t => exact Or.inl (RX.boot_fields cfg w t).1
      | step st1 inp hst ih =>
        rcases RX.loopStep_spi_rx st1 inp with he | he | he
        · rw [he]
          exact ih
        · exact Or.inr (Or.inl he)
        · exact Or.inr (Or.inr he)
    refine ⟨hmem, ?_, ?_⟩ <;>
      rcases hmem with h1 | h1 | h1 <;> rw [h1] <;> decide

/-- C9 witness at a freshly booted sender. -/
theorem C9_never_fail_witness :
    (txB.lastSpiResult = -1 ∨ txB.lastSpiResult = 0) ∧
    TX.spiStatus txB.lastSpiResult ≠ "FAIL" :=
  C9_never_fail.1 txB (TX.Reach.boot cfg0 false 0)

/-- C10: in every reachable RX state rxLen ≤ 32, the hex display string
plus its terminator fits the 97-byte buffer (length + 1 ≤ 97; in fact at
most 3·32 - 1 = 95 characters are written), and the ascii display string
plus its terminator fits the 33-byte buffer (length + 1 ≤ 33). -/
theorem C10_display_bounds :
    ∀ st : RX.State, RX.Reach st →
      st.rxLen ≤ 32 ∧
      st.lastRxData.length + 1 ≤ 97 ∧
      st.lastRxAscii.length + 1 ≤ 33 := by
  intro st h
  have hb : st.rxLen ≤ 32 ∧ st.lastRxData.length ≤ 95 ∧ st.lastRxAscii.length ≤ 32 := by
    induction h with
    | boot cfg w t =>
      obtain ⟨-, h2, h3, h4⟩ := RX.boot_fields cfg w t
      rw [h2, h3, h4]
      exact ⟨by omega, by decide, by decide⟩
    | step st1 inp hst ih =>
      exact RX.loopStep_bounds st1 inp ih.1 ih.2.1 ih.2.2
  exact ⟨hb.1, by omega, by omega⟩

/-- C10 witness at a freshly booted receiver. -/
theorem C10_display_bounds_witness :
    rxB.rxLen ≤ 32 ∧
    rxB.lastRxData.length + 1 ≤ 97 ∧
    rxB.lastRxAscii.length + 1 ≤ 33 :=
  C10_display_bounds rxB (RX.Reach.boot cfg0 false 0)

end Hallow



